import Mathlib

/-!
Shallow embedding of the conversation orchestration core of a small
RAG + tool-calling agent (a FastAPI app): the session store
(app/sessions.py), retrieval context assembly (app/rag/retriever.py,
app/rag/prompt.py), the tool registry (app/rag/tools.py), and the
two-round tool-calling turn orchestrator (app/main.py).

External collaborators are modelled as explicit function parameters: the
Chroma retriever is a function that may fail, and the Anthropic completion
client is a function from a request to either an APIStatusError or a list
of content blocks.  Every completion request issued and every tool
execution performed during a turn is recorded in a trace, so call counts
and request payloads are observable.  Python exceptions are modelled with
Except; logging calls are dropped.
-/

namespace App

/-- Flat JSON-like values, covering the tool arguments and outputs that
occur in app/rag/tools.py (strings, numbers, booleans, null). -/
inductive JVal where
  | str (s : String)
  | num (n : Int)
  | bool (b : Bool)
  | null
  deriving DecidableEq

/-- A Python dict with string keys, as an association list. -/
abbrev PyDict := List (String × JVal)

/-- Tool-call arguments (the block.input JSON object). -/
abbrev Args := List (String × JVal)

/-- Python exceptions that arise inside the tool layer. -/
inductive PyExc where
  | keyError (msg : String)
  | typeError (msg : String)
  deriving DecidableEq

/-- Python str() of an exception: KeyError renders its message argument in
quotes, TypeError renders the message alone. -/
def pyStrExc : PyExc → String
  | .keyError m => "\x27" ++ m ++ "\x27"
  | .typeError m => m

/-- Characters removed by the default Python str.strip (ASCII whitespace). -/
def isPySpace (c : Char) : Bool :=
  c == ' ' || c == '\t' || c == '\n' || c == '\x0d' || c == '\x0b' || c == '\x0c'

/-- Python str.strip(): remove leading and trailing whitespace. -/
def pyStrip (s : String) : String :=
  String.mk (((s.toList.dropWhile isPySpace).reverse.dropWhile isPySpace).reverse)

/-- app/rag/tools.py, get_order_status: a dummy shipping record.  The value
of str(date.today()) is supplied as the today parameter. -/
def get_order_status (today : String) (order_id : JVal) : PyDict :=
  [("order_id", order_id), ("status", .str "shipped"),
   ("estimated_delivery", .str today), ("carrier", .str "Acme Logistics")]

/-- app/rag/tools.py, send_email: simulated send.  The len(message) call in
the logging line and the message[:60] slice require message to be a string;
on any other value the body raises TypeError (carried in Except). -/
def send_email (recipient_email message : JVal) : Except PyExc PyDict :=
  match message with
  | .str s =>
      .ok [("success", .bool true), ("recipient", recipient_email),
           ("message_preview", .str (s.take 60)), ("detail", .str "Email sent (simulated).")]
  | _ => .error (.typeError "object has no len()")

/-- A tool specification as sent to the completion provider.  The JSON input
schema is kept structurally as its property names and its required names
(the per-property type and description strings play no role in binding). -/
structure ToolSpec where
  name : String
  description : String
  properties : List String
  required : List String
  deriving DecidableEq

/-- app/rag/tools.py, get_tool_specs. -/
def get_tool_specs : List ToolSpec :=
  [⟨"get_order_status", "Look up the current shipping status for a specific order_id.",
    ["order_id"], ["order_id"]⟩,
   ⟨"send_email", "Send an email message to a recipient (simulated).",
    ["recipient_email", "message"], ["recipient_email", "message"]⟩]

/-- Keys of an argument object. -/
def keys (args : Args) : List String := args.map Prod.fst

/-- Dict lookup of the value bound to a key, if present. -/
def lookupArg : Args → String → Option JVal
  | [], _ => none
  | kv :: rest, k => if kv.1 = k then some kv.2 else lookupArg rest k

/-- Values for the listed parameters, in order, when all are present. -/
def bindParams (args : Args) : List String → Option (List JVal)
  | [] => some []
  | p :: ps =>
    match lookupArg args p, bindParams args ps with
    | some v, some vs => some (v :: vs)
    | _, _ => none

/-- CPython keyword binding of func(**args) for a function whose parameters
are exactly params, all required and without defaults: every supplied key
must name a declared parameter and every parameter must be supplied.  A
failure raises TypeError before the function body runs. -/
def bindKwargs (params : List String) (args : Args) : Option (List JVal) :=
  if args.all (fun kv => decide (kv.1 ∈ params)) then bindParams args params else none

/-- Stand-in for the CPython TypeError text of a failed keyword binding (the
exact wording is irrelevant to control flow). -/
def bindingErrorMsg (name : String) : String :=
  name ++ "() received unexpected or missing keyword arguments"

/-- The names registered in the tool function table of app/rag/tools.py. -/
def TOOL_FUNCTIONS : List String := ["get_order_status", "send_email"]

/-- app/rag/tools.py, execute_tool: raise KeyError for an unknown name,
otherwise look up the callable and invoke it with **arguments (keyword
binding first, then the body). -/
def execute_tool (today : String) (name : String) (arguments : Args) : Except PyExc PyDict :=
  if name ∉ TOOL_FUNCTIONS then
    .error (.keyError ("Unknown tool: " ++ name))
  else if name = "get_order_status" then
    match bindKwargs ["order_id"] arguments with
    | some [order_id] => .ok (get_order_status today order_id)
    | _ => .error (.typeError (bindingErrorMsg "get_order_status"))
  else
    match bindKwargs ["recipient_email", "message"] arguments with
    | some [recipient_email, msg] => send_email recipient_email msg
    | _ => .error (.typeError (bindingErrorMsg "send_email"))

/-- The supplied argument keys match a tool input schema structurally: every
required name is present among the keys, and every supplied key is a
declared property. -/
def argKeysMatchSchema (spec : ToolSpec) (args : Args) : Prop :=
  (∀ r ∈ spec.required, r ∈ keys args) ∧ (∀ k ∈ keys args, k ∈ spec.properties)

instance (spec : ToolSpec) (args : Args) : Decidable (argKeysMatchSchema spec args) := by
  unfold argKeysMatchSchema
  infer_instance

instance exceptDecEq {ε α : Type} [DecidableEq ε] [DecidableEq α] :
    DecidableEq (Except ε α) := fun x y =>
  match x, y with
  | .error a, .error b =>
      if h : a = b then .isTrue (congrArg Except.error h)
      else .isFalse (fun hc => h (Except.error.inj hc))
  | .ok a, .ok b =>
      if h : a = b then .isTrue (congrArg Except.ok h)
      else .isFalse (fun hc => h (Except.ok.inj hc))
  | .error _, .ok _ => .isFalse (fun hc => Except.noConfusion hc)
  | .ok _, .error _ => .isFalse (fun hc => Except.noConfusion hc)

/-- Template text of the system prompt before the interpolated context block
(app/rag/prompt.py, build_system_prompt). -/
def PROMPT_HEAD : String :=
  "\nYou are **HelpBot**, a concise and friendly e‑commerce customer support agent.\n\nCapabilities:\n- Answer user questions about orders, returns, shipping, and payments.\n- Use the retrieved knowledge base context below when relevant.\n- May call tools (get_order_status, send_email) when they help answer the query.\n\nGrounding Rules:\n1. Prefer information from the *Retrieved Context* section. If the answer is directly\n   present there, summarize it in your own words.\n2. If the user requests an action that maps to a tool, call the appropriate tool.\n3. If context is empty or does not contain the answer, you may still answer from\n   general reasoning, but clearly say when something is not found.\n4. Before calling a tool, ensure required parameters are present. If missing,\n   ask the user to provide them.\n5. After receiving tool output, incorporate it into a natural language reply.\n\nRetrieved Context:\n------------------\n"

/-- Template text of the system prompt after the interpolated context block. -/
def PROMPT_TAIL : String :=
  "\n\nRespond helpfully. If clarification is needed, ask a follow‑up question.\nDo **not** invent order IDs or email addresses.\n"

/-- app/rag/prompt.py, build_system_prompt: the f-string template whose hole
is filled with the context block when that block is truthy (a Python str is
falsy exactly when empty) and with the sentinel NO CONTEXT RETRIEVED
otherwise. -/
def build_system_prompt (context_block : String) : String :=
  PROMPT_HEAD ++ (if context_block = "" then "NO CONTEXT RETRIEVED" else context_block) ++ PROMPT_TAIL

/-- An error raised by the retrieval stack (embedding model or Chroma). -/
structure RetrievalErr where
  msg : String
  deriving DecidableEq

/-- One retrieved chunk (app/rag/retriever.py, retrieve). -/
structure Snippet where
  text : String
  score : Float
  metadata : List (String × String)

/-- The external retrieval collaborator: retrieve(query, k) over the vector
store; it may raise (for example when the collection is missing). -/
abbrev Retriever := String → Nat → Except RetrievalErr (List Snippet)

/-- One rendered hit of build_context: the source writes the score with a
fixed-point float format, abstracted here as the fmt parameter. -/
def renderHit (fmt : Float → String) (i : Nat) (hit : Snippet) : String :=
  "[Document " ++ toString i ++ " | score=" ++ fmt hit.score ++ "]\n" ++ hit.text

/-- The enumerate(hits, start=1) loop of build_context. -/
def renderHits (fmt : Float → String) : Nat → List Snippet → List String
  | _, [] => []
  | i, hit :: rest => renderHit fmt i hit :: renderHits fmt (i + 1) rest

/-- app/rag/retriever.py, build_context: retrieve the top-k hits and join
the rendered chunks with a blank-line delimiter.  An exception from the
retrieval stack propagates (there is no handler in this function). -/
def build_context (retrieve : Retriever) (fmt : Float → String) (query : String) (k : Nat) :
    Except RetrievalErr String :=
  match retrieve query k with
  | .error e => .error e
  | .ok hits => .ok (String.intercalate "\n\n" (renderHits fmt 1 hits))

/-- Content blocks of a completion response or of the transient follow-up
messages built during one turn. -/
inductive ContentBlock where
  | text (s : String)
  | toolUse (id : String) (name : String) (input : Args)
  | toolResult (tool_use_id : String) (content : String)
  deriving DecidableEq

/-- Message content: plain text for persisted history entries, raw block
lists for the transient messages of a single turn. -/
inductive MsgContent where
  | str (s : String)
  | blocks (bs : List ContentBlock)
  deriving DecidableEq

/-- A chat message in provider shape: a role string plus content. -/
structure LLMMessage where
  role : String
  content : MsgContent
  deriving DecidableEq

/-- The SessionManager dictionary, session id to message list; ids that were
never written read as the empty history that setdefault would create. -/
abbrev SessionStore := String → List LLMMessage

/-- The store of a freshly constructed SessionManager. -/
def emptyStore : SessionStore := fun _ => []

/-- app/sessions.py, SessionManager.get_history. -/
def get_history (store : SessionStore) (session_id : String) : List LLMMessage :=
  store session_id

/-- Append one message to one session of the store. -/
def appendMessage (store : SessionStore) (session_id : String) (m : LLMMessage) : SessionStore :=
  fun k => if k = session_id then store k ++ [m] else store k

/-- app/sessions.py, SessionManager.append_user. -/
def append_user (store : SessionStore) (session_id text : String) : SessionStore :=
  appendMessage store session_id ⟨"user", .str text⟩

/-- app/sessions.py, SessionManager.append_assistant. -/
def append_assistant (store : SessionStore) (session_id text : String) : SessionStore :=
  appendMessage store session_id ⟨"assistant", .str text⟩

/-- The provider-side failure class caught in app/main.py (APIStatusError). -/
structure APIStatusError where
  msg : String
  deriving DecidableEq

/-- One call to client.messages.create: system prompt, message list, and the
tool specs when they are passed (the first round passes them, the follow-up
round does not). -/
structure CompletionRequest where
  system : String
  messages : List LLMMessage
  tools : Option (List ToolSpec)
  deriving DecidableEq

/-- The external completion collaborator. -/
abbrev Provider := CompletionRequest → Except APIStatusError (List ContentBlock)

/-- One entry of the tool_calls list returned by the orchestrator. -/
structure ToolCallRecord where
  name : String
  arguments : Args
  result : PyDict
  deriving DecidableEq

/-- Python repr of a flat JSON value, as produced by str() on dict values. -/
def pyReprJVal : JVal → String
  | .str s => "\x27" ++ s ++ "\x27"
  | .num n => toString n
  | .bool true => "True"
  | .bool false => "False"
  | .null => "None"

/-- Python str() of a flat dict, used for the tool_result block content. -/
def pyReprDict (d : PyDict) : String :=
  "\x7b" ++ String.intercalate ", " (d.map (fun kv => "\x27" ++ kv.1 ++ "\x27: " ++ pyReprJVal kv.2)) ++ "\x7d"

/-- The text payload of a block when its type is text. -/
def textOf : ContentBlock → Option String
  | .text s => some s
  | _ => none

/-- The name and input of a block when its type is tool_use. -/
def toolUseOf : ContentBlock → Option (String × Args)
  | .toolUse _ name input => some (name, input)
  | _ => none

/-- app/main.py, _extract_text_from_blocks: join the text blocks with
newlines and strip the result. -/
def extract_text_from_blocks (blocks : List ContentBlock) : String :=
  pyStrip (String.intercalate "\n" (blocks.filterMap textOf))

/-- The guarded per-block tool execution of _run_llm_with_tools: execute_tool
inside try/except, any exception becoming a dict with an error key. -/
def runTool (today : String) (name : String) (input : Args) : PyDict :=
  match execute_tool today name input with
  | .ok r => r
  | .error exc => [("error", .str (pyStrExc exc))]

/-- The block-inspection loop of _run_llm_with_tools: walk the first-response
content in order and, for each tool_use block, record the tool_calls entry,
the tool_result block (tagged with the block id), and the execution itself. -/
def processBlocks (today : String) :
    List ContentBlock → List ToolCallRecord × List ContentBlock × List (String × Args)
  | [] => ([], [], [])
  | .toolUse id name input :: rest =>
      (⟨name, input, runTool today name input⟩ :: (processBlocks today rest).1,
       .toolResult id (pyReprDict (runTool today name input)) :: (processBlocks today rest).2.1,
       (name, input) :: (processBlocks today rest).2.2)
  | .text _ :: rest => processBlocks today rest
  | .toolResult _ _ :: rest => processBlocks today rest

/-- Trace of the externally visible effects of one turn: the completion
requests issued and the tool executions performed, in order. -/
structure RunTrace where
  llmRequests : List CompletionRequest
  toolExecutions : List (String × Args)
  deriving DecidableEq

/-- app/main.py, _run_llm_with_tools: first completion call with tool specs;
if any tool_use blocks are present, execute each in order of appearance and
issue exactly one follow-up call carrying the original response blocks and
one tool_result block per execution; otherwise answer from the first
response directly. -/
def run_llm_with_tools (provider : Provider) (today system_prompt : String)
    (messages : List LLMMessage) :
    Except APIStatusError (String × List ToolCallRecord) × RunTrace :=
  let req1 : CompletionRequest := ⟨system_prompt, messages, some get_tool_specs⟩
  match provider req1 with
  | .error e => (.error e, ⟨[req1], []⟩)
  | .ok first =>
    let pb := processBlocks today first
    if pb.2.1.isEmpty then
      (.ok (extract_text_from_blocks first, pb.1), ⟨[req1], pb.2.2⟩)
    else
      let req2 : CompletionRequest :=
        ⟨system_prompt,
         messages ++ [⟨"assistant", .blocks first⟩, ⟨"user", .blocks pb.2.1⟩],
         none⟩
      match provider req2 with
      | .error e => (.error e, ⟨[req1, req2], pb.2.2⟩)
      | .ok second => (.ok (extract_text_from_blocks second, pb.1), ⟨[req1, req2], pb.2.2⟩)

/-- A provider whose answer depends only on whether the request carries tool
specs: the first round of a turn does, the follow-up round does not. -/
def twoRound (r1 r2 : Except APIStatusError (List ContentBlock)) : Provider :=
  fun req =>
    match req.tools with
    | some _ => r1
    | none => r2

/-- Failures that cross the chat endpoint boundary: an HTTPException raised
by the handler, or an exception from the retrieval stack escaping the
handler unhandled. -/
inductive ChatError where
  | httpException (status : Nat) (detail : String)
  | retrievalError (e : RetrievalErr)
  deriving DecidableEq

/-- The response body of the chat endpoint. -/
structure ChatResponse where
  answer : String
  tool_calls : List ToolCallRecord
  deriving DecidableEq

/-- app/main.py, _format_history_for_llm: copy role and content into the
provider message shape. -/
def format_history_for_llm (history : List LLMMessage) : List LLMMessage :=
  history.map (fun m => ⟨m.role, m.content⟩)

/-- app/main.py, chat: reject blank input with HTTP 400; append the user
message; build the retrieval context from the current query with k = 3 (no
handler around this call, so a retrieval exception escapes); build the
system prompt; run the two-round tool loop, converting APIStatusError into
HTTP 500; persist the assistant answer; return the response.  The value is
the endpoint outcome, the session store afterwards, and the effect trace. -/
def chat (retrieve : Retriever) (provider : Provider) (fmt : Float → String)
    (today : String) (store : SessionStore) (session_id message : String) :
    Except ChatError ChatResponse × SessionStore × RunTrace :=
  if pyStrip message = "" then
    (.error (.httpException 400 "Message cannot be empty."), store, ⟨[], []⟩)
  else
    match build_context retrieve fmt message 3 with
    | .error e => (.error (.retrievalError e), append_user store session_id message, ⟨[], []⟩)
    | .ok context_block =>
      match run_llm_with_tools provider today (build_system_prompt context_block)
          (format_history_for_llm (get_history (append_user store session_id message) session_id)) with
      | (.error api_err, tr) =>
          (.error (.httpException 500 ("Anthropic API error: " ++ api_err.msg)),
           append_user store session_id message, tr)
      | (.ok (answer, tool_calls), tr) =>
          (.ok ⟨answer, tool_calls⟩,
           append_assistant (append_user store session_id message) session_id answer, tr)

/-- The inputs of one chat turn, collaborators included. -/
structure TurnInput where
  retrieve : Retriever
  provider : Provider
  fmt : Float → String
  today : String
  session_id : String
  message : String

/-- Run a sequence of chat turns against the store, threading the store. -/
def runTurns : SessionStore → List TurnInput → SessionStore
  | store, [] => store
  | store, t :: rest =>
      runTurns (chat t.retrieve t.provider t.fmt t.today store t.session_id t.message).2.1 rest

/-- A retriever whose underlying Chroma collection is unavailable. -/
def failingRetriever : Retriever := fun _ _ => .error ⟨"chroma collection unavailable"⟩

/-- A retriever over an empty corpus. -/
def emptyRetriever : Retriever := fun _ _ => .ok []

/-- A fixed score formatter for concrete runs. -/
def constFmt : Float → String := fun _ => "0.0000"

/-- A provider that always answers with a single text block. -/
def textProvider : Provider := fun _ => .ok [.text "ok"]

/-! Helper lemmas about keyword binding. -/

theorem lookupArg_isSome_iff (args : Args) (p : String) :
    (lookupArg args p).isSome ↔ p ∈ keys args := by
  induction args with
  | nil => simp [lookupArg, keys]
  | cons kv rest ih =>
    by_cases h : kv.1 = p
    · simp [lookupArg, keys, h]
    · simp only [lookupArg, if_neg h, keys, List.map_cons, List.mem_cons]
      rw [ih]
      simp only [keys]
      constructor
      · exact Or.inr
      · rintro (h1 | h1)
        · exact absurd h1.symm h
        · exact h1

theorem bindParams_isSome_iff (args : Args) (params : List String) :
    (bindParams args params).isSome ↔ ∀ p ∈ params, p ∈ keys args := by
  induction params with
  | nil => simp [bindParams]
  | cons p ps ih =>
    simp only [bindParams, List.mem_cons]
    rcases h1 : lookupArg args p with _ | v
    · have hp : p ∉ keys args := by
        rw [← lookupArg_isSome_iff, h1]; simp
      simp only [Option.isSome_none, Bool.false_eq_true, false_iff, not_forall]
      exact ⟨p, Or.inl rfl, hp⟩
    · have hp : p ∈ keys args := by
        rw [← lookupArg_isSome_iff, h1]; rfl
      rcases h2 : bindParams args ps with _ | vs
      · rw [h2] at ih
        simp only [Option.isSome_none, Bool.false_eq_true, false_iff, not_forall] at ih ⊢
        obtain ⟨q, hq1, hq2⟩ := ih
        exact ⟨q, Or.inr hq1, hq2⟩
      · rw [h2] at ih
        simp only [Option.isSome_some, true_iff] at ih
        simp only [Option.isSome_some, true_iff]
        rintro q (rfl | hq)
        · exact hp
        · exact ih q hq

theorem bindKwargs_isSome_iff (params : List String) (args : Args) :
    (bindKwargs params args).isSome ↔
      ((∀ p ∈ params, p ∈ keys args) ∧ (∀ k ∈ keys args, k ∈ params)) := by
  unfold bindKwargs
  by_cases h : args.all (fun kv => decide (kv.1 ∈ params))
  · have hkeys : ∀ k ∈ keys args, k ∈ params := by
      intro k hk
      simp only [keys, List.mem_map] at hk
      obtain ⟨kv, hkv, rfl⟩ := hk
      have := (List.all_eq_true.1 h) kv hkv
      exact of_decide_eq_true this
    rw [if_pos h, bindParams_isSome_iff]
    exact ⟨fun hp => ⟨hp, hkeys⟩, fun hp => hp.1⟩
  · rw [if_neg h]
    simp only [Option.isSome_none, Bool.false_eq_true, false_iff, not_and]
    intro _ hkeys
    apply h
    rw [List.all_eq_true]
    intro kv hkv
    exact decide_eq_true (hkeys kv.1 (List.mem_map_of_mem Prod.fst hkv))

/-! Helper lemmas about text extraction and block processing. -/

theorem extract_text_of_no_text (blocks : List ContentBlock)
    (h : blocks.filterMap textOf = []) : extract_text_from_blocks blocks = "" := by
  unfold extract_text_from_blocks
  rw [h]
  rfl

theorem processBlocks_execs (today : String) (bs : List ContentBlock) :
    (processBlocks today bs).2.2 = bs.filterMap toolUseOf := by
  induction bs with
  | nil => rfl
  | cons b rest ih => cases b <;> simp [processBlocks, toolUseOf, ih]

theorem processBlocks_names (today : String) (bs : List ContentBlock) :
    (processBlocks today bs).1.map (fun t => (t.name, t.arguments)) = bs.filterMap toolUseOf := by
  induction bs with
  | nil => rfl
  | cons b rest ih => cases b <;> simp [processBlocks, toolUseOf, ih]

theorem processBlocks_trb_eq_nil_iff (today : String) (bs : List ContentBlock) :
    (processBlocks today bs).2.1 = [] ↔ bs.filterMap toolUseOf = [] := by
  induction bs with
  | nil => simp [processBlocks]
  | cons b rest ih => cases b <;> simp [processBlocks, toolUseOf, ih]

theorem processBlocks_append (today : String) (xs ys : List ContentBlock) :
    processBlocks today (xs ++ ys) =
      ((processBlocks today xs).1 ++ (processBlocks today ys).1,
       (processBlocks today xs).2.1 ++ (processBlocks today ys).2.1,
       (processBlocks today xs).2.2 ++ (processBlocks today ys).2.2) := by
  induction xs with
  | nil => rfl
  | cons b rest ih => cases b <;> simp [processBlocks, ih]

/-! Helper lemmas about the two-round loop under a twoRound provider. -/

theorem run_llm_first_err (r2 : Except APIStatusError (List ContentBlock))
    (e : APIStatusError) (today sp : String) (msgs : List LLMMessage) :
    run_llm_with_tools (twoRound (.error e) r2) today sp msgs =
      (.error e, ⟨[⟨sp, msgs, some get_tool_specs⟩], []⟩) := rfl

theorem run_llm_ok_no_tools (first : List ContentBlock)
    (r2 : Except APIStatusError (List ContentBlock)) (today sp : String)
    (msgs : List LLMMessage) (h : first.filterMap toolUseOf = []) :
    run_llm_with_tools (twoRound (.ok first) r2) today sp msgs =
      (.ok (extract_text_from_blocks first, (processBlocks today first).1),
       ⟨[⟨sp, msgs, some get_tool_specs⟩], (processBlocks today first).2.2⟩) := by
  have htrb : (processBlocks today first).2.1 = [] := (processBlocks_trb_eq_nil_iff today first).2 h
  unfold run_llm_with_tools twoRound
  simp [htrb]

theorem run_llm_ok_tools_ok (first second : List ContentBlock) (today sp : String)
    (msgs : List LLMMessage) (h : first.filterMap toolUseOf ≠ []) :
    run_llm_with_tools (twoRound (.ok first) (.ok second)) today sp msgs =
      (.ok (extract_text_from_blocks second, (processBlocks today first).1),
       ⟨[⟨sp, msgs, some get_tool_specs⟩,
         ⟨sp, msgs ++ [⟨"assistant", .blocks first⟩, ⟨"user", .blocks (processBlocks today first).2.1⟩],
          none⟩],
        (processBlocks today first).2.2⟩) := by
  have htrb : (processBlocks today first).2.1 ≠ [] :=
    fun hc => h ((processBlocks_trb_eq_nil_iff today first).1 hc)
  unfold run_llm_with_tools twoRound
  simp [List.isEmpty_iff, htrb]

theorem run_llm_ok_tools_err (first : List ContentBlock) (e : APIStatusError)
    (today sp : String) (msgs : List LLMMessage) (h : first.filterMap toolUseOf ≠ []) :
    run_llm_with_tools (twoRound (.ok first) (.error e)) today sp msgs =
      (.error e,
       ⟨[⟨sp, msgs, some get_tool_specs⟩,
         ⟨sp, msgs ++ [⟨"assistant", .blocks first⟩, ⟨"user", .blocks (processBlocks today first).2.1⟩],
          none⟩],
        (processBlocks today first).2.2⟩) := by
  have htrb : (processBlocks today first).2.1 ≠ [] :=
    fun hc => h ((processBlocks_trb_eq_nil_iff today first).1 hc)
  unfold run_llm_with_tools twoRound
  simp [List.isEmpty_iff, htrb]

/-! Helper lemmas about the chat endpoint. -/

theorem chat_invalid (retrieve : Retriever) (provider : Provider) (fmt : Float → String)
    (today : String) (store : SessionStore) (sid msg : String) (h : pyStrip msg = "") :
    chat retrieve provider fmt today store sid msg =
      (.error (.httpException 400 "Message cannot be empty."), store, ⟨[], []⟩) := by
  unfold chat
  rw [if_pos h]

theorem chat_retrieve_err (retrieve : Retriever) (provider : Provider) (fmt : Float → String)
    (today : String) (store : SessionStore) (sid msg : String) (e : RetrievalErr)
    (hmsg : pyStrip msg ≠ "") (hret : retrieve msg 3 = .error e) :
    chat retrieve provider fmt today store sid msg =
      (.error (.retrievalError e), append_user store sid msg, ⟨[], []⟩) := by
  unfold chat build_context
  rw [if_neg hmsg, hret]

theorem chat_run_err (retrieve : Retriever) (provider : Provider) (fmt : Float → String)
    (today : String) (store : SessionStore) (sid msg : String) (hits : List Snippet)
    (e : APIStatusError) (tr : RunTrace)
    (hmsg : pyStrip msg ≠ "") (hret : retrieve msg 3 = .ok hits)
    (hrun : run_llm_with_tools provider today
        (build_system_prompt (String.intercalate "\n\n" (renderHits fmt 1 hits)))
        (format_history_for_llm (get_history (append_user store sid msg) sid)) =
      (.error e, tr)) :
    chat retrieve provider fmt today store sid msg =
      (.error (.httpException 500 ("Anthropic API error: " ++ e.msg)),
       append_user store sid msg, tr) := by
  unfold chat build_context
  rw [if_neg hmsg, hret]
  simp only []
  rw [hrun]

theorem chat_run_ok (retrieve : Retriever) (provider : Provider) (fmt : Float → String)
    (today : String) (store : SessionStore) (sid msg : String) (hits : List Snippet)
    (ans : String) (tcs : List ToolCallRecord) (tr : RunTrace)
    (hmsg : pyStrip msg ≠ "") (hret : retrieve msg 3 = .ok hits)
    (hrun : run_llm_with_tools provider today
        (build_system_prompt (String.intercalate "\n\n" (renderHits fmt 1 hits)))
        (format_history_for_llm (get_history (append_user store sid msg) sid)) =
      (.ok (ans, tcs), tr)) :
    chat retrieve provider fmt today store sid msg =
      (.ok ⟨ans, tcs⟩, append_assistant (append_user store sid msg) sid ans, tr) := by
  unfold chat build_context
  rw [if_neg hmsg, hret]
  simp only []
  rw [hrun]

/-! Helper lemmas about the session store. -/

theorem get_history_appendMessage_self (store : SessionStore) (sid : String) (m : LLMMessage) :
    get_history (appendMessage store sid m) sid = get_history store sid ++ [m] := by
  unfold get_history appendMessage
  rw [if_pos rfl]

theorem mem_of_mem_appendMessage (store : SessionStore) (sid : String) (m : LLMMessage)
    (k : String) (x : LLMMessage) (hx : x ∈ get_history (appendMessage store sid m) k) :
    x ∈ get_history store k ∨ x = m := by
  unfold get_history appendMessage at hx
  by_cases h : k = sid
  · rw [if_pos h] at hx
    rcases List.mem_append.1 hx with h1 | h1
    · exact Or.inl h1
    · simp only [List.mem_singleton] at h1
      exact Or.inr h1
  · rw [if_neg h] at hx
    exact Or.inl hx

theorem chat_store_mem (retrieve : Retriever) (provider : Provider) (fmt : Float → String)
    (today : String) (store : SessionStore) (sid msg : String) (k : String) (x : LLMMessage)
    (hx : x ∈ get_history (chat retrieve provider fmt today store sid msg).2.1 k) :
    x ∈ get_history store k ∨ (∃ s, x = ⟨"user", .str s⟩) ∨ (∃ s, x = ⟨"assistant", .str s⟩) := by
  unfold chat at hx
  split at hx
  · exact Or.inl hx
  · split at hx
    · rcases mem_of_mem_appendMessage _ _ _ _ _ hx with h1 | rfl
      · exact Or.inl h1
      · exact Or.inr (Or.inl ⟨msg, rfl⟩)
    · split at hx
      · rcases mem_of_mem_appendMessage _ _ _ _ _ hx with h1 | rfl
        · exact Or.inl h1
        · exact Or.inr (Or.inl ⟨msg, rfl⟩)
      · rename_i answer tool_calls tr _
        rcases mem_of_mem_appendMessage _ _ _ _ _ hx with h1 | rfl
        · rcases mem_of_mem_appendMessage _ _ _ _ _ h1 with h2 | rfl
          · exact Or.inl h2
          · exact Or.inr (Or.inl ⟨msg, rfl⟩)
        · exact Or.inr (Or.inr ⟨answer, rfl⟩)

theorem runTurns_plain (ts : List TurnInput) (store : SessionStore)
    (h : ∀ k x, x ∈ get_history store k →
      (x.role = "user" ∨ x.role = "assistant") ∧ ∃ s, x.content = MsgContent.str s) :
    ∀ k x, x ∈ get_history (runTurns store ts) k →
      (x.role = "user" ∨ x.role = "assistant") ∧ ∃ s, x.content = MsgContent.str s := by
  induction ts generalizing store with
  | nil => exact h
  | cons t rest ih =>
    refine ih _ ?_
    intro k x hx
    rcases chat_store_mem _ _ _ _ _ _ _ _ _ hx with h1 | ⟨s, rfl⟩ | ⟨s, rfl⟩
    · exact h k x h1
    · exact ⟨Or.inl rfl, s, rfl⟩
    · exact ⟨Or.inr rfl, s, rfl⟩

/-! Claim C1 (retrieval failure handling). -/

/-- C1 counterexample: with a retriever whose collection is unavailable, the
turn does not complete with an empty context block; the retrieval error
escapes to the caller and the turn aborts, refuting the claim at this
concrete input. -/
theorem c1_counterexample :
    (chat failingRetriever textProvider constFmt "2024-01-01" emptyStore "s1" "hello").1 =
      .error (.retrievalError ⟨"chroma collection unavailable"⟩) := by
  rw [chat_retrieve_err failingRetriever textProvider constFmt "2024-01-01" emptyStore "s1"
    "hello" ⟨"chroma collection unavailable"⟩ (by decide) rfl]

/-- C1 (amended): a failure of the retrieval step is fatal to the turn: the
error propagates to the caller uncaught, no completion call is issued and no
tool runs, and the session keeps the already-appended user message; an empty
context block arises only when retrieval succeeds with no snippets. -/
theorem c1_retrieval_failure_aborts (retrieve : Retriever) (provider : Provider)
    (fmt : Float → String) (today : String) (store : SessionStore)
    (session_id message : String) (e : RetrievalErr)
    (hmsg : pyStrip message ≠ "") (hret : retrieve message 3 = .error e) :
    chat retrieve provider fmt today store session_id message =
      (.error (.retrievalError e), append_user store session_id message, ⟨[], []⟩) :=
  chat_retrieve_err retrieve provider fmt today store session_id message e hmsg hret

/-- C1 witness: the amended statement instantiated at a concrete failing
retriever. -/
theorem c1_witness :
    chat failingRetriever textProvider constFmt "2024-01-01" emptyStore "s1" "hi" =
      (.error (.retrievalError ⟨"chroma collection unavailable"⟩),
       append_user emptyStore "s1" "hi", ⟨[], []⟩) :=
  c1_retrieval_failure_aborts failingRetriever textProvider constFmt "2024-01-01" emptyStore
    "s1" "hi" ⟨"chroma collection unavailable"⟩ (by decide) rfl

/-! Claim C2 (structural argument validation). -/

/-- C2: for every registered tool, the keyword binding performed inside
execute_tool accepts an argument object exactly when its keys match the
declared input schema structurally; on a mismatch execute_tool yields the
binding TypeError without producing any handler output, and the
orchestrator converts that failure into a tool_calls entry with an error
key while the turn still completes with a follow-up answer. -/
theorem c2_schema_validation (spec : ToolSpec) (hspec : spec ∈ get_tool_specs)
    (today : String) (args : Args) :
    ((bindKwargs spec.required args).isSome ↔ argKeysMatchSchema spec args) ∧
    (¬ argKeysMatchSchema spec args →
      execute_tool today spec.name args =
        .error (.typeError (bindingErrorMsg spec.name)) ∧
      ∀ id sp msgs second,
        (run_llm_with_tools (twoRound (.ok [.toolUse id spec.name args]) (.ok second))
            today sp msgs).1 =
          .ok (extract_text_from_blocks second,
               [⟨spec.name, args, [("error", .str (bindingErrorMsg spec.name))]⟩])) := by
  simp only [get_tool_specs, List.mem_cons, List.mem_singleton, List.not_mem_nil, or_false]
    at hspec
  rcases hspec with rfl | rfl
  · refine ⟨bindKwargs_isSome_iff ["order_id"] args, fun hmm => ?_⟩
    have hb : bindKwargs ["order_id"] args = none := by
      rw [← Option.not_isSome_iff_eq_none]
      intro hs
      exact hmm ((bindKwargs_isSome_iff ["order_id"] args).1 hs)
    have he : execute_tool today "get_order_status" args =
        .error (.typeError (bindingErrorMsg "get_order_status")) := by
      unfold execute_tool
      rw [if_neg (by decide), if_pos rfl, hb]
    refine ⟨he, fun id sp msgs second => ?_⟩
    have h1 : ([ContentBlock.toolUse id "get_order_status" args].filterMap toolUseOf) ≠ [] := by
      simp [toolUseOf]
    rw [run_llm_ok_tools_ok _ second today sp msgs h1]
    simp [processBlocks, runTool, he, pyStrExc]
  · refine ⟨bindKwargs_isSome_iff ["recipient_email", "message"] args, fun hmm => ?_⟩
    have hb : bindKwargs ["recipient_email", "message"] args = none := by
      rw [← Option.not_isSome_iff_eq_none]
      intro hs
      exact hmm ((bindKwargs_isSome_iff ["recipient_email", "message"] args).1 hs)
    have he : execute_tool today "send_email" args =
        .error (.typeError (bindingErrorMsg "send_email")) := by
      unfold execute_tool
      rw [if_neg (by decide), if_neg (by decide), hb]
    refine ⟨he, fun id sp msgs second => ?_⟩
    have h1 : ([ContentBlock.toolUse id "send_email" args].filterMap toolUseOf) ≠ [] := by
      simp [toolUseOf]
    rw [run_llm_ok_tools_ok _ second today sp msgs h1]
    simp [processBlocks, runTool, he, pyStrExc]

/-- C2 witness: calling get_order_status with no arguments fails the
structural key check and yields the binding error. -/
theorem c2_witness :
    execute_tool "2024-01-01" "get_order_status" [] =
      .error (.typeError (bindingErrorMsg "get_order_status")) :=
  ((c2_schema_validation
      ⟨"get_order_status", "Look up the current shipping status for a specific order_id.",
       ["order_id"], ["order_id"]⟩
      (by decide) "2024-01-01" []).2 (by decide)).1

/-! Claim C3 (round and execution counts). -/

/-- C3: with zero tool_use blocks in the first completion, tool_calls is
empty and only one completion request is issued; with N tool_use blocks,
exactly N tool executions and exactly one follow-up request occur, and
tool_calls has length N in the order the blocks appear. -/
theorem c3_tool_round_shape (first : List ContentBlock)
    (r2 : Except APIStatusError (List ContentBlock)) (second : List ContentBlock)
    (today sp : String) (msgs : List LLMMessage) :
    (first.filterMap toolUseOf = [] →
      run_llm_with_tools (twoRound (.ok first) r2) today sp msgs =
        (.ok (extract_text_from_blocks first, []),
         ⟨[⟨sp, msgs, some get_tool_specs⟩], []⟩)) ∧
    (first.filterMap toolUseOf ≠ [] →
      (run_llm_with_tools (twoRound (.ok first) (.ok second)) today sp msgs).2.llmRequests.length
          = 2 ∧
      (run_llm_with_tools (twoRound (.ok first) (.ok second)) today sp msgs).2.toolExecutions =
        first.filterMap toolUseOf ∧
      ∃ tcs : List ToolCallRecord,
        (run_llm_with_tools (twoRound (.ok first) (.ok second)) today sp msgs).1 =
          .ok (extract_text_from_blocks second, tcs) ∧
        tcs.map (fun t => (t.name, t.arguments)) = first.filterMap toolUseOf ∧
        tcs.length = (first.filterMap toolUseOf).length) := by
  constructor
  · intro h
    have hc : (processBlocks today first).1 = [] := by
      have hmap := processBlocks_names today first
      rw [h] at hmap
      exact List.map_eq_nil_iff.1 hmap
    have he : (processBlocks today first).2.2 = [] := by
      rw [processBlocks_execs, h]
    rw [run_llm_ok_no_tools first r2 today sp msgs h, hc, he]
  · intro h
    rw [run_llm_ok_tools_ok first second today sp msgs h]
    refine ⟨rfl, processBlocks_execs today first, (processBlocks today first).1, rfl,
      processBlocks_names today first, ?_⟩
    rw [← processBlocks_names today first, List.length_map]

/-- C3 witness: a first completion with a single text block and no tool_use
blocks answers directly with empty tool_calls and a single request. -/
theorem c3_witness :
    run_llm_with_tools (twoRound (.ok [ContentBlock.text "hi"]) (.ok [])) "d" "sys" [] =
      (.ok (extract_text_from_blocks [ContentBlock.text "hi"], []),
       ⟨[⟨"sys", [], some get_tool_specs⟩], []⟩) :=
  (c3_tool_round_shape [ContentBlock.text "hi"] (.ok []) [] "d" "sys" []).1 (by decide)

/-! Claim C4 (tool failures are isolated). -/

/-- C4: a tool_use block whose execution raises (an unregistered name
included) becomes a tool_calls entry with an error key; sibling executions
and the turn proceed, and the follow-up request still carries a tool_result
block tagged with the originating call id. -/
theorem c4_tool_failure_isolated (today sp : String) (msgs : List LLMMessage)
    (front back : List ContentBlock) (id name : String) (args : Args)
    (exc : PyExc) (second : List ContentBlock)
    (hfail : execute_tool today name args = .error exc) :
    (run_llm_with_tools
        (twoRound (.ok (front ++ ContentBlock.toolUse id name args :: back)) (.ok second))
        today sp msgs).1 =
      .ok (extract_text_from_blocks second,
           (processBlocks today front).1 ++
             ⟨name, args, [("error", .str (pyStrExc exc))]⟩ :: (processBlocks today back).1) ∧
    (run_llm_with_tools
        (twoRound (.ok (front ++ ContentBlock.toolUse id name args :: back)) (.ok second))
        today sp msgs).2.toolExecutions =
      (front ++ ContentBlock.toolUse id name args :: back).filterMap toolUseOf ∧
    (run_llm_with_tools
        (twoRound (.ok (front ++ ContentBlock.toolUse id name args :: back)) (.ok second))
        today sp msgs).2.llmRequests.length = 2 ∧
    ∃ req ∈ (run_llm_with_tools
        (twoRound (.ok (front ++ ContentBlock.toolUse id name args :: back)) (.ok second))
        today sp msgs).2.llmRequests,
      (⟨"user", .blocks ((processBlocks today front).2.1 ++
          ContentBlock.toolResult id (pyReprDict [("error", .str (pyStrExc exc))]) ::
            (processBlocks today back).2.1)⟩ : LLMMessage) ∈ req.messages := by
  have hrt : runTool today name args = [("error", .str (pyStrExc exc))] := by
    unfold runTool
    rw [hfail]
  have hne : (front ++ ContentBlock.toolUse id name args :: back).filterMap toolUseOf ≠ [] := by
    simp [List.filterMap_append, toolUseOf]
  rw [run_llm_ok_tools_ok _ second today sp msgs hne]
  refine ⟨?_, processBlocks_execs today _, rfl, ?_⟩
  · rw [processBlocks_append]
    simp [processBlocks, hrt]
  · rw [processBlocks_append]
    refine ⟨⟨sp, msgs ++ [⟨"assistant",
        .blocks (front ++ ContentBlock.toolUse id name args :: back)⟩,
        ⟨"user", .blocks ((processBlocks today front).2.1 ++
          (processBlocks today (ContentBlock.toolUse id name args :: back)).2.1)⟩], none⟩,
      by simp, ?_⟩
    simp [processBlocks, hrt]

/-- C4 witness: an unknown tool name yields an error-result entry and the
turn still completes with the follow-up answer. -/
theorem c4_witness :
    (run_llm_with_tools
        (twoRound (.ok [ContentBlock.toolUse "c1" "unknown_tool" []])
          (.ok [ContentBlock.text "done"]))
        "d" "sys" []).1 =
      .ok (extract_text_from_blocks [ContentBlock.text "done"],
           [⟨"unknown_tool", [],
             [("error", .str (pyStrExc (.keyError "Unknown tool: unknown_tool")))]⟩]) := by
  have h := (c4_tool_failure_isolated "d" "sys" [] [] [] "c1" "unknown_tool" []
    (.keyError "Unknown tool: unknown_tool") [ContentBlock.text "done"] (by decide)).1
  simpa [processBlocks] using h

/-! Claim C5 (blank input rejected before any mutation). -/

/-- C5: a message that strips to the empty string is rejected with the 400
validation failure before any state mutation: the store is returned
unchanged, no requests or executions happen, and a fresh session still
reads as the empty history. -/
theorem c5_empty_message_rejected (retrieve : Retriever) (provider : Provider)
    (fmt : Float → String) (today : String) (store : SessionStore)
    (session_id message : String) (h : pyStrip message = "") :
    chat retrieve provider fmt today store session_id message =
      (.error (.httpException 400 "Message cannot be empty."), store, ⟨[], []⟩) ∧
    get_history (chat retrieve provider fmt today store session_id message).2.1 session_id =
      get_history store session_id ∧
    get_history emptyStore session_id = [] := by
  refine ⟨chat_invalid _ _ _ _ _ _ _ h, ?_, rfl⟩
  rw [chat_invalid _ _ _ _ _ _ _ h]

/-- C5 witness: a whitespace-only message is rejected and the fresh store is
untouched. -/
theorem c5_witness :
    chat emptyRetriever textProvider constFmt "2024-01-01" emptyStore "s1" " " =
      (.error (.httpException 400 "Message cannot be empty."), emptyStore, ⟨[], []⟩) :=
  (c5_empty_message_rejected emptyRetriever textProvider constFmt "2024-01-01" emptyStore
    "s1" " " (by decide)).1

/-! Claim C6 (provider failure aborts the turn, history kept). -/

/-- C6: a completion-provider failure on either round makes the whole turn
fail with the distinguishable 500 provider error, and the user message that
was already appended stays in the history with no assistant reply. -/
theorem c6_provider_failure_surfaced (retrieve : Retriever) (fmt : Float → String)
    (today : String) (store : SessionStore) (session_id message : String)
    (hits : List Snippet) (e : APIStatusError)
    (hmsg : pyStrip message ≠ "") (hret : retrieve message 3 = .ok hits) :
    (∀ r2,
      (chat retrieve (twoRound (.error e) r2) fmt today store session_id message).1 =
        .error (.httpException 500 ("Anthropic API error: " ++ e.msg)) ∧
      get_history
          (chat retrieve (twoRound (.error e) r2) fmt today store session_id message).2.1
          session_id =
        get_history store session_id ++ [⟨"user", .str message⟩]) ∧
    (∀ first, first.filterMap toolUseOf ≠ [] →
      (chat retrieve (twoRound (.ok first) (.error e)) fmt today store session_id message).1 =
        .error (.httpException 500 ("Anthropic API error: " ++ e.msg)) ∧
      get_history
          (chat retrieve (twoRound (.ok first) (.error e)) fmt today store session_id message).2.1
          session_id =
        get_history store session_id ++ [⟨"user", .str message⟩]) := by
  constructor
  · intro r2
    rw [chat_run_err retrieve (twoRound (.error e) r2) fmt today store session_id message hits
      e _ hmsg hret (run_llm_first_err r2 e today _ _)]
    exact ⟨rfl, get_history_appendMessage_self store session_id _⟩
  · intro first hfirst
    rw [chat_run_err retrieve (twoRound (.ok first) (.error e)) fmt today store session_id
      message hits e _ hmsg hret (run_llm_ok_tools_err first e today _ _ hfirst)]
    exact ⟨rfl, get_history_appendMessage_self store session_id _⟩

/-- C6 witness: a first-round provider failure on a fresh store surfaces the
500 error and keeps exactly the user message in the history. -/
theorem c6_witness :
    (chat emptyRetriever (twoRound (.error ⟨"boom"⟩) (.ok [])) constFmt "d" emptyStore
        "s1" "hi").1 =
      .error (.httpException 500 ("Anthropic API error: " ++ "boom")) ∧
    get_history
        (chat emptyRetriever (twoRound (.error ⟨"boom"⟩) (.ok [])) constFmt "d" emptyStore
          "s1" "hi").2.1 "s1" =
      [⟨"user", .str "hi"⟩] :=
  ((c6_provider_failure_surfaced emptyRetriever constFmt "d" emptyStore "s1" "hi" []
    ⟨"boom"⟩ (by decide) rfl).1 (.ok []))

/-! Claim C7 (history accumulation). -/

/-- C7: a never-seen session id reads as the empty history, append_user and
append_assistant extend the session at the end in call order, and a
successful turn leaves the history extended with the user message followed
by the assistant answer. -/
theorem c7_history_accumulation (retrieve : Retriever) (provider : Provider)
    (fmt : Float → String) (today : String) (store : SessionStore)
    (session_id message t : String) :
    get_history emptyStore session_id = [] ∧
    get_history (append_user store session_id t) session_id =
      get_history store session_id ++ [⟨"user", .str t⟩] ∧
    get_history (append_assistant store session_id t) session_id =
      get_history store session_id ++ [⟨"assistant", .str t⟩] ∧
    (∀ resp store2 tr,
      chat retrieve provider fmt today store session_id message = (.ok resp, store2, tr) →
      get_history store2 session_id =
        get_history store session_id ++
          [⟨"user", .str message⟩, ⟨"assistant", .str resp.answer⟩]) := by
  refine ⟨rfl, get_history_appendMessage_self store session_id _,
    get_history_appendMessage_self store session_id _, ?_⟩
  intro resp store2 tr h
  unfold chat at h
  split at h
  · simp [Prod.ext_iff] at h
  · split at h
    · simp [Prod.ext_iff] at h
    · split at h
      · simp [Prod.ext_iff] at h
      · rename_i answer tool_calls tr2 heq
        rw [Prod.ext_iff] at h
        obtain ⟨h1, h23⟩ := h
        rw [Prod.ext_iff] at h23
        obtain ⟨h2, _⟩ := h23
        injection h1 with h1
        subst h2
        rw [← h1]
        unfold append_assistant append_user
        rw [get_history_appendMessage_self, get_history_appendMessage_self]
        simp

/-- C7 witness: a successful concrete turn appends the user message and then
the assistant answer to a fresh session. -/
theorem c7_witness :
    get_history (chat emptyRetriever textProvider constFmt "d" emptyStore "s1" "hi").2.1 "s1" =
      get_history emptyStore "s1" ++ [⟨"user", .str "hi"⟩, ⟨"assistant", .str "ok"⟩] := by
  have h := (c7_history_accumulation emptyRetriever textProvider constFmt "d" emptyStore
    "s1" "hi" "x").2.2.2
  have h1 : (chat emptyRetriever textProvider constFmt "d" emptyStore "s1" "hi").1 =
      .ok ⟨"ok", []⟩ := by decide
  exact h ⟨"ok", []⟩ _ _ (by rw [← h1])

/-! Claim C8 (context assembly round-trip). -/

/-- C8: build_context returns the empty string rather than an error on an
empty retrieval result; the prompt built from the empty block carries the
no-context sentinel in place of the context; the prompt built from a
non-empty block contains that block verbatim. -/
theorem c8_context_roundtrip (retrieve : Retriever) (fmt : Float → String)
    (q : String) (k : Nat) (cb : String)
    (hret : retrieve q k = .ok []) (hcb : cb ≠ "") :
    build_context retrieve fmt q k = .ok "" ∧
    (∃ h t, build_system_prompt "" = h ++ "NO CONTEXT RETRIEVED" ++ t) ∧
    (∃ h t, build_system_prompt cb = h ++ cb ++ t) := by
  refine ⟨?_, ⟨PROMPT_HEAD, PROMPT_TAIL, ?_⟩, ⟨PROMPT_HEAD, PROMPT_TAIL, ?_⟩⟩
  · unfold build_context
    rw [hret]
    rfl
  · unfold build_system_prompt
    rw [if_pos rfl]
  · unfold build_system_prompt
    rw [if_neg hcb]

/-- C8 witness: the round-trip at a concrete empty retriever and the block
ctx. -/
theorem c8_witness :
    build_context emptyRetriever constFmt "q" 3 = .ok "" ∧
    (∃ h t, build_system_prompt "" = h ++ "NO CONTEXT RETRIEVED" ++ t) ∧
    (∃ h t, build_system_prompt "ctx" = h ++ "ctx" ++ t) :=
  c8_context_roundtrip emptyRetriever constFmt "q" 3 "ctx" rfl (by decide)

/-! Claim C9 (no tool metadata in persisted history). -/

/-- C9: after any sequence of turns starting from a fresh store, every
message in every session has role user or assistant and plain string
content; tool_use and tool_result blocks never reach the session history. -/
theorem c9_no_tool_metadata_persisted (ts : List TurnInput) (sid : String)
    (x : LLMMessage) (hx : x ∈ get_history (runTurns emptyStore ts) sid) :
    (x.role = "user" ∨ x.role = "assistant") ∧ ∃ s, x.content = MsgContent.str s :=
  runTurns_plain ts emptyStore (fun _ _ hm => absurd hm (List.not_mem_nil _)) sid x hx

/-- C9 witness: the invariant checked on the history produced by one
concrete turn. -/
theorem c9_witness :
    ((⟨"user", .str "hi"⟩ : LLMMessage).role = "user" ∨
      (⟨"user", .str "hi"⟩ : LLMMessage).role = "assistant") ∧
    ∃ s, (⟨"user", .str "hi"⟩ : LLMMessage).content = MsgContent.str s :=
  c9_no_tool_metadata_persisted
    [⟨emptyRetriever, textProvider, constFmt, "d", "s1", "hi"⟩] "s1"
    ⟨"user", .str "hi"⟩ (by decide)

/-! Claim C10 (empty extracted answer is persisted and returned). -/

/-- C10: when the completion response that produces the final answer has no
text blocks, the extracted answer is the empty string, and the turn still
appends that empty string to the session as an assistant message and
returns it, even though empty user input is rejected. -/
theorem c10_empty_answer_persisted (retrieve : Retriever) (fmt : Float → String)
    (today : String) (store : SessionStore) (session_id message : String)
    (hits : List Snippet)
    (hmsg : pyStrip message ≠ "") (hret : retrieve message 3 = .ok hits) :
    (∀ first r2, first.filterMap toolUseOf = [] → first.filterMap textOf = [] →
      (chat retrieve (twoRound (.ok first) r2) fmt today store session_id message).1 =
        .ok ⟨"", []⟩ ∧
      get_history
          (chat retrieve (twoRound (.ok first) r2) fmt today store session_id message).2.1
          session_id =
        get_history store session_id ++
          [⟨"user", .str message⟩, ⟨"assistant", .str ""⟩]) ∧
    (∀ first second, first.filterMap toolUseOf ≠ [] → second.filterMap textOf = [] →
      (chat retrieve (twoRound (.ok first) (.ok second)) fmt today store session_id message).1 =
        .ok ⟨"", (processBlocks today first).1⟩ ∧
      get_history
          (chat retrieve (twoRound (.ok first) (.ok second)) fmt today store session_id
            message).2.1 session_id =
        get_history store session_id ++
          [⟨"user", .str message⟩, ⟨"assistant", .str ""⟩]) := by
  constructor
  · intro first r2 hno htext
    have hc : (processBlocks today first).1 = [] := by
      have hmap := processBlocks_names today first
      rw [hno] at hmap
      exact List.map_eq_nil_iff.1 hmap
    have hrun := run_llm_ok_no_tools first r2 today
      (build_system_prompt (String.intercalate "\n\n" (renderHits fmt 1 hits)))
      (format_history_for_llm (get_history (append_user store session_id message) session_id))
      hno
    rw [hc, extract_text_of_no_text first htext] at hrun
    rw [chat_run_ok retrieve (twoRound (.ok first) r2) fmt today store session_id message hits
      "" [] _ hmsg hret hrun]
    refine ⟨rfl, ?_⟩
    unfold append_assistant append_user
    rw [get_history_appendMessage_self, get_history_appendMessage_self]
    simp
  · intro first second hsome htext
    have hrun := run_llm_ok_tools_ok first second today
      (build_system_prompt (String.intercalate "\n\n" (renderHits fmt 1 hits)))
      (format_history_for_llm (get_history (append_user store session_id message) session_id))
      hsome
    rw [extract_text_of_no_text second htext] at hrun
    rw [chat_run_ok retrieve (twoRound (.ok first) (.ok second)) fmt today store session_id
      message hits "" ((processBlocks today first).1) _ hmsg hret hrun]
    refine ⟨rfl, ?_⟩
    unfold append_assistant append_user
    rw [get_history_appendMessage_self, get_history_appendMessage_self]
    simp

/-- C10 witness: a first completion with no blocks at all yields the empty
answer, which is returned and appended. -/
theorem c10_witness :
    (chat emptyRetriever (twoRound (.ok []) (.ok [])) constFmt "d" emptyStore "s1" "hi").1 =
      .ok ⟨"", []⟩ :=
  (((c10_empty_answer_persisted emptyRetriever constFmt "d" emptyStore "s1" "hi" []
    (by decide) rfl).1) [] (.ok []) (by decide) (by decide)).1

end App
